import Mathlib

/- Shallow embedding of the texture subsystem of `src/core/texture.rs`
   (crate three-d): the data model (`Texture2D`, `ColorTargetTexture2D`,
   `TextureCubeMap`), the upload/download paths (`fill`, `read`), the
   mip-level planner and the render-target write scaffold.  GPU side
   effects are made explicit as a trace of `GLCall` values and the
   texture's GPU-resident content is carried in the structure, so that
   the source's bind/upload/generate-mipmap call order is visible to
   the theorems. -/

namespace ThreeD

/- GL enumerant values used by the source through `consts::...`. -/

def TEXTURE_2D : Nat := 3553

def TEXTURE_CUBE_MAP : Nat := 34067

def TEXTURE_CUBE_MAP_POSITIVE_X : Nat := 34069

def DRAW_FRAMEBUFFER : Nat := 36009

def READ_FRAMEBUFFER : Nat := 36008

/-- Interpolation filter, enumerated in the spec as `{Nearest, Linear}`. -/
inductive Interpolation where
  | Nearest
  | Linear
  deriving DecidableEq

/-- Wrap mode, enumerated in the spec as `{Repeat, ClampToEdge, MirroredRepeat}`. -/
inductive Wrapping where
  | RepeatWrap
  | ClampToEdge
  | MirroredRepeat
  deriving DecidableEq

/-- Pixel format, enumerated in the spec as `{R, RG, RGB, RGBA}`. -/
inductive Format where
  | R
  | RG
  | RGB
  | RGBA
  deriving DecidableEq

/-- Modelled from the spec: `Format::color_channel_count` is defined outside
`src/` (in `definition.rs`); spec section 4.1 exposes the channel count for a
format (count of channels: R, RG, RGB, RGBA), used to size buffers. -/
def Format.color_channel_count : Format → Nat
  | .R => 1
  | .RG => 2
  | .RGB => 3
  | .RGBA => 4

/-- Modelled from the spec: the crate's `Error` type is defined outside `src/`;
spec section 7 lists the error kinds.  `DataLengthMismatch` carries the expected
and the actual length, since its message must name both values. -/
inductive Error where
  | AllocationError
  | UnsupportedFormat
  | DataLengthMismatch (expected : Nat) (actual : Nat)
  | UnsupportedReadFormat
  deriving DecidableEq

/-- One primitive call into the driver/context collaborator (spec section 6);
`fill`, `new` and `read` return the list of such calls they issued, in order. -/
inductive GLCall where
  | bindTexture (target : Nat) (id : Nat)
  | setSamplerParams (target : Nat) (id : Nat)
  | texStorage2d (target : Nat) (levels : Nat) (width : Nat) (height : Nat)
  | texSubImage (target : Nat) (sliceLength : Nat)
  | generateMipmap (target : Nat)
  | bindFramebuffer (target : Nat) (id : Nat)
  deriving DecidableEq

/-- Modelled from the spec: `calculate_number_of_mip_maps` is defined outside
`src/` (only its callers are under `src/`); spec section 4.2: if `mip_filter`
is absent, returns 1; otherwise returns `floor(log2(max(width,height,depth))) + 1`.
`Nat.log 2` is the floor of the real base-2 logarithm on positive naturals. -/
def calculate_number_of_mip_maps (mip_map_filter : Option Interpolation)
    (width height depth : Nat) : Nat :=
  match mip_map_filter with
  | none => 1
  | some _ => Nat.log 2 (max width (max height depth)) + 1

/-- Modelled from the spec: `check_data_length` is defined outside `src/` (only
its callers are under `src/`); spec section 4.4: precondition
`len(data) == width × height × (depth_or_1) × channel_count`, otherwise fails
with `DataLengthMismatch` naming expected vs actual length. -/
def check_data_length (width height depth : Nat) (format : Format)
    (length : Nat) : Except Error Unit :=
  let expected := width * height * depth * format.color_channel_count
  if length = expected then Except.ok () else Except.error (.DataLengthMismatch expected length)

/-- A 2D texture (`struct Texture2D`, texture.rs lines 12-19): a native handle
`id` plus width, height, format and mip level count.  `base_level` is the
GPU-resident content of mip level 0 and `mips_valid` records whether the mip
chain has been regenerated from it; both stand for GPU memory, not Rust fields. -/
structure Texture2D (α : Type) where
  id : Nat
  width : Nat
  height : Nat
  format : Format
  number_of_mip_maps : Nat
  base_level : List α
  mips_valid : Bool
  deriving DecidableEq

/-- The private `generate_mip_maps` (texture.rs lines 91-96): if
`number_of_mip_maps > 1`, binds the texture and issues `generate_mipmap`. -/
def Texture2D.generate_mip_maps (t : Texture2D α) : Texture2D α × List GLCall :=
  if t.number_of_mip_maps > 1 then
    ({ t with mips_valid := true },
     [.bindTexture TEXTURE_2D t.id, .generateMipmap TEXTURE_2D])
  else
    (t, [])

/-- `Texture2D::fill` (texture.rs lines 76-89): checks the data length, binds
the texture, uploads `data` (`T::fill`, a driver upload of the whole base
level), then regenerates mip maps.  Returns the result, the texture after the
call and the trace of driver calls issued. -/
def Texture2D.fill (t : Texture2D α) (data : List α) :
    Except Error Unit × Texture2D α × List GLCall :=
  match check_data_length t.width t.height 1 t.format data.length with
  | .error e => (.error e, t, [])
  | .ok _ =>
    let t1 : Texture2D α := { t with base_level := data }
    let gm := t1.generate_mip_maps
    (.ok (),
     gm.1,
     [.bindTexture TEXTURE_2D t.id, .texSubImage TEXTURE_2D data.length] ++ gm.2)

/-- A cube map texture (`struct TextureCubeMap`, texture.rs lines 406-414).
`faces` is the GPU-resident content of the six faces' base levels, in the
upload order right, left, top, bottom, front, back. -/
structure TextureCubeMap (α : Type) where
  id : Nat
  width : Nat
  height : Nat
  format : Format
  number_of_mip_maps : Nat
  faces : List (List α)
  mips_valid : Bool
  deriving DecidableEq

/-- The private cube-map `generate_mip_maps` (texture.rs lines 481-487). -/
def TextureCubeMap.generate_mip_maps (t : TextureCubeMap α) :
    TextureCubeMap α × List GLCall :=
  if t.number_of_mip_maps > 1 then
    ({ t with mips_valid := true },
     [.bindTexture TEXTURE_CUBE_MAP t.id, .generateMipmap TEXTURE_CUBE_MAP])
  else
    (t, [])

/-- `TextureCubeMap::fill` (texture.rs lines 462-479): computes
`offset = data.len() / 6` (truncating integer division, as in Rust), checks
that `offset` pixels' worth of elements fill one face, binds the cube map and
uploads the slice `data[i*offset..(i+1)*offset]` to face
`TEXTURE_CUBE_MAP_POSITIVE_X + i` for i = 0..5, then regenerates mip maps. -/
def TextureCubeMap.fill (t : TextureCubeMap α) (data : List α) :
    Except Error Unit × TextureCubeMap α × List GLCall :=
  let offset := data.length / 6
  match check_data_length t.width t.height 1 t.format offset with
  | .error e => (.error e, t, [])
  | .ok _ =>
    let slices := (List.range 6).map (fun i => (data.drop (i * offset)).take offset)
    let uploads := (List.range 6).map
      (fun i => GLCall.texSubImage (TEXTURE_CUBE_MAP_POSITIVE_X + i) offset)
    let t1 : TextureCubeMap α := { t with faces := slices }
    let gm := t1.generate_mip_maps
    (.ok (),
     gm.1,
     [GLCall.bindTexture TEXTURE_CUBE_MAP t.id] ++ uploads ++ gm.2)

/-- Modelled from the spec: `CPUTexture` is defined outside `src/` (in
`definition.rs`); it carries the fields `Texture2D::new` and
`TextureCubeMap::new` read from it: dimensions, format, sampler parameters,
mip filter and the pixel data. -/
structure CPUTexture (α : Type) where
  width : Nat
  height : Nat
  format : Format
  min_filter : Interpolation
  mag_filter : Interpolation
  mip_map_filter : Option Interpolation
  wrap_s : Wrapping
  wrap_t : Wrapping
  wrap_r : Wrapping
  data : List α
  deriving DecidableEq

/-- Modelled from the spec: `set_parameters` is defined outside `src/`; spec
section 4.3 says construction applies sampler parameters immediately, through
the driver's `set_sampler_params` (section 6).  Only the fact that a parameter
call is issued matters to the claims, so it is one trace entry. -/
def set_parameters (target : Nat) (id : Nat) : List GLCall :=
  [.setSamplerParams target id]

/-- `Texture2D::new` (texture.rs lines 25-68): allocates a handle (`generate`,
whose driver outcome is the `gen` argument), plans mip levels, sets sampler
parameters, negotiates the internal format (`T::internal_format`, the `ifmt`
argument, failing with `UnsupportedFormat` when the combination has no native
representation), reserves storage, then fills the texture with the CPU
texture's data, propagating any fill error. -/
def Texture2D.new (gen : Except Error Nat) (ifmt : Format → Except Error Nat)
    (cpu : CPUTexture α) : Except Error (Texture2D α) × List GLCall :=
  match gen with
  | .error e => (.error e, [])
  | .ok id =>
    let number_of_mip_maps :=
      calculate_number_of_mip_maps cpu.mip_map_filter cpu.width cpu.height 1
    let paramCalls := set_parameters TEXTURE_2D id
    match ifmt cpu.format with
    | .error e => (.error e, paramCalls)
    | .ok _ =>
      let storage := GLCall.texStorage2d TEXTURE_2D number_of_mip_maps cpu.width cpu.height
      let tex : Texture2D α :=
        ⟨id, cpu.width, cpu.height, cpu.format, number_of_mip_maps, [], false⟩
      match tex.fill cpu.data with
      | (.error e, _, fillCalls) => (.error e, paramCalls ++ [storage] ++ fillCalls)
      | (.ok _, t2, fillCalls) => (.ok t2, paramCalls ++ [storage] ++ fillCalls)

/-- `TextureCubeMap::new` (texture.rs lines 417-459): same shape as
`Texture2D::new` but binds the cube map before reserving storage and delegates
to the cube-map `fill`. -/
def TextureCubeMap.new (gen : Except Error Nat) (ifmt : Format → Except Error Nat)
    (cpu : CPUTexture α) : Except Error (TextureCubeMap α) × List GLCall :=
  match gen with
  | .error e => (.error e, [])
  | .ok id =>
    let number_of_mip_maps :=
      calculate_number_of_mip_maps cpu.mip_map_filter cpu.width cpu.height 1
    let paramCalls := set_parameters TEXTURE_CUBE_MAP id
    match ifmt cpu.format with
    | .error e => (.error e, paramCalls)
    | .ok _ =>
      let pre := [GLCall.bindTexture TEXTURE_CUBE_MAP id,
        GLCall.texStorage2d TEXTURE_CUBE_MAP number_of_mip_maps cpu.width cpu.height]
      let tex : TextureCubeMap α :=
        ⟨id, cpu.width, cpu.height, cpu.format, number_of_mip_maps, [], false⟩
      match tex.fill cpu.data with
      | (.error e, _, fillCalls) => (.error e, paramCalls ++ pre ++ fillCalls)
      | (.ok _, t2, fillCalls) => (.ok t2, paramCalls ++ pre ++ fillCalls)

/-- A viewport (spec section 3): rectangular region (x, y, width, height)
bounding a transfer or render operation.  Defined in the crate's math module,
outside `src/`. -/
structure Viewport where
  x : Int
  y : Int
  width : Nat
  height : Nat
  deriving DecidableEq

/-- A 2D color texture that can be rendered into and read from
(`struct ColorTargetTexture2D`, texture.rs lines 123-131). -/
structure ColorTargetTexture2D (α : Type) where
  id : Nat
  width : Nat
  height : Nat
  number_of_mip_maps : Nat
  format : Format
  deriving DecidableEq

/-- `ColorTargetTexture2D::read` (texture.rs lines 222-240): fails with the
read-format error unless the format is RGBA; otherwise allocates a buffer of
`viewport.width * viewport.height * color_channel_count` default elements,
binds the render target to both framebuffer halves and lets the driver's
`read_pixels` overwrite the buffer in place.  `readPixels` stands for the
driver's value at each buffer index; modelled from the spec for the part
outside `src/`: `T::read` (spec section 6 `read_pixels`) writes into the
preallocated buffer without changing its length. -/
def ColorTargetTexture2D.read (t : ColorTargetTexture2D α) (readPixels : Nat → α)
    (viewport : Viewport) : Except Error (List α) × List GLCall :=
  if t.format ≠ Format.RGBA then
    (.error .UnsupportedReadFormat, [])
  else
    let n := viewport.width * viewport.height * t.format.color_channel_count
    (.ok ((List.range n).map readPixels),
     [.bindFramebuffer DRAW_FRAMEBUFFER t.id, .bindFramebuffer READ_FRAMEBUFFER t.id])

/-- The GPU's global binding state the render-target binder mutates and must
restore (spec section 5): the currently bound framebuffer handle, `none` for
the default framebuffer. -/
structure GpuState where
  bound_framebuffer : Option Nat
  deriving DecidableEq

/-- Modelled from the spec: `RenderTarget::write` is defined outside `src/`
(texture.rs line 195 only delegates to it); spec section 4.5: binds the
framebuffer, issues a clear, invokes the caller-supplied draw closure while
the framebuffer is bound, then unbinds regardless of whether the closure
succeeded or failed, restoring the previously bound framebuffer, and only then
propagates the closure's own result to the caller. -/
def RenderTarget.write (fb : Nat) (s : GpuState)
    (render : GpuState → Except Error Unit × GpuState) :
    Except Error Unit × GpuState :=
  let prev := s.bound_framebuffer
  let s1 : GpuState := { bound_framebuffer := some fb }
  let result := render s1
  (result.1, { result.2 with bound_framebuffer := prev })

/-- `ColorTargetTexture2D::write` (texture.rs lines 190-196): wraps the texture
in a render target and delegates to the render target's `write`. -/
def ColorTargetTexture2D.write (t : ColorTargetTexture2D α) (s : GpuState)
    (render : GpuState → Except Error Unit × GpuState) :
    Except Error Unit × GpuState :=
  RenderTarget.write t.id s render

/- Concrete instances used by witnesses, counterexamples and failing-input
evaluations. -/

def c1_texture : TextureCubeMap Nat := ⟨7, 1, 1, Format.R, 1, List.replicate 6 [], true⟩

def c3_texture : Texture2D Nat := ⟨1, 4, 4, Format.RGBA, 1, [], true⟩

def c4_texture : ColorTargetTexture2D Nat := ⟨3, 8, 8, 1, Format.R⟩

def c5_texture : Texture2D Nat := ⟨2, 2, 2, Format.R, 2, [], false⟩

def c6_texture : ColorTargetTexture2D Nat := ⟨5, 4, 4, 1, Format.RGBA⟩

def c7_texture : ColorTargetTexture2D Nat := ⟨6, 8, 8, 1, Format.RGBA⟩

def c9_cpu : CPUTexture Nat :=
  ⟨1, 1, Format.R, .Nearest, .Nearest, none, .RepeatWrap, .RepeatWrap, .RepeatWrap,
   [10, 11, 12, 13, 14, 15, 16]⟩

def c10_texture : Texture2D Nat := ⟨1, 2, 2, Format.R, 1, [], true⟩

def c10_cube : TextureCubeMap Nat := ⟨2, 2, 2, Format.R, 1, List.replicate 6 [], true⟩

/-- Claim C1, evaluated at the failing input: a 1×1 cube map with format R
needs 6 × 1 × 1 × 1 = 6 elements, yet `fill` with 7 elements succeeds, because
`offset = 7 / 6 = 1` (truncating division) passes the per-face length check;
the claim says any length other than 6 must fail with `DataLengthMismatch`. -/
theorem cube_fill_accepts_length_seven :
    (c1_texture.fill [10, 11, 12, 13, 14, 15, 16]).1 = .ok () ∧
    [10, 11, 12, 13, 14, 15, 16].length ≠
      6 * (c1_texture.width * c1_texture.height * c1_texture.format.color_channel_count) :=
  ⟨rfl, by decide⟩

/-- Claim C2: the mip-level planner returns 1 whenever no mip filter is
requested, and with a mip filter it returns floor(log2(max(width, height,
depth))) + 1, which is always at least 1. -/
theorem mip_planner_spec :
    (∀ w h d, calculate_number_of_mip_maps none w h d = 1) ∧
    (∀ f w h d,
      calculate_number_of_mip_maps (some f) w h d = Nat.log 2 (max w (max h d)) + 1 ∧
      1 ≤ calculate_number_of_mip_maps (some f) w h d) := by
  refine ⟨fun w h d => rfl, fun f w h d => ⟨rfl, ?_⟩⟩
  simp [calculate_number_of_mip_maps]

/-- Claim C3: `Texture2D::fill` with a data length different from
width × height × channel_count fails with `DataLengthMismatch` naming the
expected and the actual length, for any pixel format; with the exact length it
succeeds. -/
theorem fill2d_data_length_contract {α : Type} (t : Texture2D α) (data : List α) :
    (data.length ≠ t.width * t.height * t.format.color_channel_count →
      (t.fill data).1 = .error (.DataLengthMismatch
        (t.width * t.height * t.format.color_channel_count) data.length)) ∧
    (data.length = t.width * t.height * t.format.color_channel_count →
      (t.fill data).1 = .ok ()) := by
  constructor <;> intro h <;>
    simp [Texture2D.fill, check_data_length, mul_one, h]

/-- Witness for C3 at the spec's example scenario: a 4×4 RGBA texture filled
with 63 elements fails citing expected 64 and actual 63, and filled with 64
elements succeeds. -/
theorem fill2d_data_length_contract_witness :
    (c3_texture.fill (List.replicate 63 0)).1 = .error (.DataLengthMismatch 64 63) ∧
    (c3_texture.fill (List.replicate 64 0)).1 = .ok () :=
  ⟨by simpa using (fill2d_data_length_contract c3_texture (List.replicate 63 0)).1 (by decide),
   (fill2d_data_length_contract c3_texture (List.replicate 64 0)).2 (by decide)⟩

/-- Claim C4: `ColorTargetTexture2D::read` on a texture whose format is not
RGBA fails with the unsupported-read-format error, regardless of the
viewport. -/
theorem read_non_rgba_fails {α : Type} (t : ColorTargetTexture2D α)
    (readPixels : Nat → α) (viewport : Viewport) (h : t.format ≠ Format.RGBA) :
    (t.read readPixels viewport).1 = .error .UnsupportedReadFormat := by
  simp [ColorTargetTexture2D.read, h]

/-- Witness for C4: reading an 8×8 R-format color target fails. -/
theorem read_non_rgba_fails_witness :
    (c4_texture.read (fun i => i) ⟨0, 0, 8, 8⟩).1 = .error .UnsupportedReadFormat :=
  read_non_rgba_fails c4_texture (fun i => i) ⟨0, 0, 8, 8⟩ (by decide)

/-- Claim C5: after a successful `Texture2D::fill`, the trace contains a
`generate_mipmap` call exactly when the texture's mip level count exceeds 1;
a texture with level count 1 never has `generate_mipmap` invoked on it. -/
theorem fill2d_mipmap_regeneration {α : Type} (t : Texture2D α) (data : List α)
    (h : (t.fill data).1 = .ok ()) :
    (GLCall.generateMipmap TEXTURE_2D ∈ (t.fill data).2.2 ↔ 1 < t.number_of_mip_maps) := by
  rcases hc : check_data_length t.width t.height 1 t.format data.length with e | u
  · simp [Texture2D.fill, hc] at h
  · by_cases hm : 1 < t.number_of_mip_maps <;>
      simp [Texture2D.fill, hc, Texture2D.generate_mip_maps, hm]

/-- Witness for C5: a 2×2 R texture with 2 mip levels, filled with 4 elements,
has `generate_mipmap` in its trace. -/
theorem fill2d_mipmap_regeneration_witness :
    GLCall.generateMipmap TEXTURE_2D ∈ (c5_texture.fill [1, 2, 3, 4]).2.2 :=
  (fill2d_mipmap_regeneration c5_texture [1, 2, 3, 4] rfl).2 (by decide)

/-- Claim C6: for every render-target `write`, including when the draw closure
fails, the framebuffer binding active before the call is restored before
`write` returns, and the closure's error is then propagated to the caller. -/
theorem write_restores_binding_and_propagates {α : Type}
    (t : ColorTargetTexture2D α) (s : GpuState)
    (render : GpuState → Except Error Unit × GpuState) :
    (t.write s render).2.bound_framebuffer = s.bound_framebuffer ∧
    (∀ e, (render { bound_framebuffer := some t.id }).1 = .error e →
      (t.write s render).1 = .error e) := by
  constructor
  · simp [ColorTargetTexture2D.write, RenderTarget.write]
  · intro e he
    simp [ColorTargetTexture2D.write, RenderTarget.write, he]

/-- Witness for C6: a draw closure that fails with `AllocationError` under a
previously bound framebuffer 9; the binding 9 is restored and the error
propagated. -/
theorem write_restores_binding_and_propagates_witness :
    (c6_texture.write ⟨some 9⟩ (fun s => (.error .AllocationError, s))).2.bound_framebuffer
      = some 9 ∧
    (c6_texture.write ⟨some 9⟩ (fun s => (.error .AllocationError, s))).1
      = .error .AllocationError := by
  have h := write_restores_binding_and_propagates c6_texture ⟨some 9⟩
    (fun s => (.error .AllocationError, s))
  exact ⟨h.1, h.2 .AllocationError rfl⟩

/-- Claim C7: a successful `read` on an RGBA color target returns exactly
viewport.width × viewport.height × 4 elements. -/
theorem read_rgba_result_length {α : Type} (t : ColorTargetTexture2D α)
    (readPixels : Nat → α) (viewport : Viewport) (h : t.format = Format.RGBA) :
    ∃ pixels, (t.read readPixels viewport).1 = .ok pixels ∧
      pixels.length = viewport.width * viewport.height * 4 := by
  refine ⟨(List.range (viewport.width * viewport.height * 4)).map readPixels, ?_, by simp⟩
  simp [ColorTargetTexture2D.read, h, Format.color_channel_count]

/-- Witness for C7: reading a 2×3 viewport of an RGBA target yields 24
elements. -/
theorem read_rgba_result_length_witness :
    ∃ pixels, (c7_texture.read (fun i => i) ⟨0, 0, 2, 3⟩).1 = .ok pixels ∧
      pixels.length = 2 * 3 * 4 :=
  read_rgba_result_length c7_texture (fun i => i) ⟨0, 0, 2, 3⟩ rfl

/-- Claim C8: `fill` (successful or failed) leaves the texture's width, height,
format and mip level count unchanged, for both `Texture2D` and
`TextureCubeMap`; only the GPU-side contents and mip chain change. -/
theorem fill_preserves_shape {α : Type} (t : Texture2D α) (c : TextureCubeMap α)
    (d e : List α) :
    ((t.fill d).2.1.width = t.width ∧ (t.fill d).2.1.height = t.height ∧
     (t.fill d).2.1.format = t.format ∧
     (t.fill d).2.1.number_of_mip_maps = t.number_of_mip_maps) ∧
    ((c.fill e).2.1.width = c.width ∧ (c.fill e).2.1.height = c.height ∧
     (c.fill e).2.1.format = c.format ∧
     (c.fill e).2.1.number_of_mip_maps = c.number_of_mip_maps) := by
  constructor
  · rcases hc : check_data_length t.width t.height 1 t.format d.length with _ | _
    · simp [Texture2D.fill, hc]
    · by_cases hm : 1 < t.number_of_mip_maps <;>
        simp [Texture2D.fill, hc, Texture2D.generate_mip_maps, hm]
  · rcases hc : check_data_length c.width c.height 1 c.format (e.length / 6) with _ | _
    · simp [TextureCubeMap.fill, hc]
    · by_cases hm : 1 < c.number_of_mip_maps <;>
        simp [TextureCubeMap.fill, hc, TextureCubeMap.generate_mip_maps, hm]

/-- Claim C9, evaluated at the failing input: `TextureCubeMap::new` for a 1×1
R cube map whose CPU data has 7 elements (6 required) succeeds and returns a
texture, because `fill`'s truncating `len / 6` accepts the ragged length; the
claim says construction must fail with `DataLengthMismatch` whenever the data
length does not match the declared dimensions and format. -/
theorem cube_new_accepts_mismatched_data :
    (TextureCubeMap.new (.ok 1) (fun _ => .ok 0) c9_cpu).1.isOk = true ∧
    c9_cpu.data.length ≠
      6 * (c9_cpu.width * c9_cpu.height * c9_cpu.format.color_channel_count) :=
  ⟨rfl, by decide⟩

/-- Claim C10: when `fill` returns `DataLengthMismatch`, no driver call has
been issued — the trace is empty and the texture (contents included) is
unchanged — for both `Texture2D::fill` and `TextureCubeMap::fill`. -/
theorem fill_error_is_pure {α : Type} (t : Texture2D α) (c : TextureCubeMap α)
    (d e : List α) :
    (∀ ex ac, (t.fill d).1 = .error (.DataLengthMismatch ex ac) →
      (t.fill d).2.2 = [] ∧ (t.fill d).2.1 = t) ∧
    (∀ ex ac, (c.fill e).1 = .error (.DataLengthMismatch ex ac) →
      (c.fill e).2.2 = [] ∧ (c.fill e).2.1 = c) := by
  constructor
  · intro ex ac h
    rcases hc : check_data_length t.width t.height 1 t.format d.length with _ | _
    · constructor <;> simp [Texture2D.fill, hc]
    · simp [Texture2D.fill, hc] at h
  · intro ex ac h
    rcases hc : check_data_length c.width c.height 1 c.format (e.length / 6) with _ | _
    · constructor <;> simp [TextureCubeMap.fill, hc]
    · simp [TextureCubeMap.fill, hc] at h

/-- Witness for C10: a 2×2 R texture filled with 1 element and a 2×2 R cube
map filled with 0 elements both fail, each with an empty trace and the texture
unchanged. -/
theorem fill_error_is_pure_witness :
    ((c10_texture.fill [0]).2.2 = [] ∧ (c10_texture.fill [0]).2.1 = c10_texture) ∧
    ((c10_cube.fill []).2.2 = [] ∧ (c10_cube.fill []).2.1 = c10_cube) :=
  ⟨(fill_error_is_pure c10_texture c10_cube [0] []).1 4 1 rfl,
   (fill_error_is_pure c10_texture c10_cube [0] []).2 4 0 rfl⟩

end ThreeD
